import Mathlib

/-!
Verification of the table-lifecycle layer of the `anais_pipeline` repository.

The repository is Python ETL glue around two database backends:
an embedded DuckDB adapter (`pipeline/database_management/duckdb_pipeline.py`,
class `DuckDBPipeline`) and a networked Postgres adapter
(`pipeline/database_management/postgres_loader.py`, class `PostgreSQLLoader`).
Both adapters expose the same vocabulary of table operations, each of which is a
single SQL statement (or a short sequence of them) against the backend.

The shallow embedding below models:
 - a database as an association list from table name to table contents
   (column list plus row list) — the single-schema view seen by the data
   operations, which address tables by unqualified name;
 - the backend catalog (`information_schema.tables`) as a list of
   (table_schema, table_name) pairs — the view seen by the existence check
   and by `reset_histo`, whose SQL filters on those two columns;
 - each adapter method as a pure function from the relevant state to the
   new state (plus flags for logged warnings/errors where a claim needs them).

The file is organised as: all definitions first, then the lemmas and the
claim theorems.
-/

namespace Anais

/-- A database row, as the tuple of its column values. -/
abbrev Row := List String

/-- Contents of one table: its declared column names and its rows. -/
structure Table where
  cols : List String
  rows : List Row
deriving DecidableEq, Repr

/-- A single-schema database: association list from table name to contents. -/
abbrev DB := List (String × Table)

/-- Look a table up by name (first binding wins, as in a catalog keyed by name). -/
def lookupTable : DB → String → Option Table
  | [], _ => none
  | (n, t) :: rest, name => if n = name then some t else lookupTable rest name

/-- A table exists when its name is bound in the database. -/
def tableExists (db : DB) (name : String) : Bool :=
  (lookupTable db name).isSome

/-- Replace the contents bound to `name`, or add the binding when absent. -/
def setTable : DB → String → Table → DB
  | [], name, tbl => [(name, tbl)]
  | (n, t) :: rest, name, tbl =>
    if n = name then (name, tbl) :: rest else (n, t) :: setTable rest name tbl

/-- `DuckDBPipeline.copy_table_into_new` / `PostgreSQLLoader.copy_table_into_new`:
`CREATE TABLE target AS SELECT * FROM source` (Postgres:
`CREATE TABLE target AS TABLE source WITH DATA`). The statement errors when
the source is missing or the target already exists, modelled as `none`. -/
def copy_table_into_new (db : DB) (source target : String) : Option DB :=
  match lookupTable db source with
  | none => none
  | some tbl => if tableExists db target then none else some (setTable db target tbl)

/-- `DuckDBPipeline.append_table` / `PostgreSQLLoader.append_table`:
`INSERT INTO target SELECT * FROM source`. Both tables must exist and, per the
method's documented precondition, have the same structure; the inserted rows are
appended to the target's rows. -/
def append_table (db : DB) (source target : String) : Option DB :=
  match lookupTable db source, lookupTable db target with
  | some src, some tgt =>
    if src.cols = tgt.cols then
      some (setTable db target ⟨tgt.cols, tgt.rows ++ src.rows⟩)
    else none
  | _, _ => none

/-- `truncate_table` (both adapters): `TRUNCATE TABLE name` — the table keeps its
columns and loses all rows; errors when the table is missing. -/
def truncate_table (db : DB) (name : String) : Option DB :=
  match lookupTable db name with
  | none => none
  | some tbl => some (setTable db name ⟨tbl.cols, []⟩)

/-- Modelled from the spec: the historization step of `DataBasePipeline`
(file `pipeline/database_management/database_pipeline.py`, which is not among
the provided sources; only its subclasses are). Per the spec: historizing a
table T with existing archive `zT` (name = "z" ++ T) appends T's rows to `zT`
then empties T; historizing T without `zT` creates `zT` as a copy of T then
empties T. Stated over the adapters' building blocks `append_table`,
`copy_table_into_new` and `truncate_table`. -/
def historize (db : DB) (t : String) : Option DB :=
  let zt := "z" ++ t
  if tableExists db zt then
    match append_table db t zt with
    | none => none
    | some db1 => truncate_table db1 t
  else
    match copy_table_into_new db t zt with
    | none => none
    | some db1 => truncate_table db1 t

/-- `DuckDBPipeline.copy_table_from_staging` (with the staging configuration
present): reads the staging table into a dataframe, then runs
`CREATE TABLE IF NOT EXISTS db_table_name AS SELECT * FROM staging_data`.
`IF NOT EXISTS` makes the statement a no-op when the target already exists.
Reading a missing staging table raises, modelled as `none`. -/
def DuckDB.copy_table_from_staging (staging db : DB)
    (staging_table_name db_table_name : String) : Option DB :=
  match lookupTable staging staging_table_name with
  | none => none
  | some tbl =>
    if tableExists db db_table_name then some db
    else some (setTable db db_table_name tbl)

/-- `PostgreSQLLoader.copy_table_from_staging` (with the staging configuration
present): reads the staging table, drops the target if it exists, then writes
the dataframe with `to_sql(..., if_exists='replace')`. Net effect: the target
is bound to the staging table's contents. Reading a missing staging table
raises, modelled as `none`. -/
def Postgres.copy_table_from_staging (staging db : DB)
    (staging_table_name db_table_name : String) : Option DB :=
  match lookupTable staging staging_table_name with
  | none => none
  | some tbl => some (setTable db db_table_name tbl)

/-- The backend catalog (`information_schema.tables`): one (table_schema,
table_name) pair per table. -/
abbrev Catalog := List (String × String)

/-- `DuckDBPipeline.is_table_exist`: runs
`SELECT COUNT(*) FROM information_schema.tables WHERE table_name = '<table>'`
and tests the count for truthiness. The `schema` entry of `query_params` is
received but never used in the SQL, so the check spans all schemas. -/
def DuckDB.is_table_exist (cat : Catalog) (qschema qtable : String) : Bool :=
  (cat.filter (fun p => p.2 == qtable)).length != 0

/-- `PostgreSQLLoader.is_table_exist`: runs
`SELECT EXISTS (SELECT FROM information_schema.tables WHERE table_schema =
:schema AND table_name = :table)`. -/
def Postgres.is_table_exist (cat : Catalog) (qschema qtable : String) : Bool :=
  cat.any (fun p => p.1 == qschema && p.2 == qtable)

/-- `DuckDBPipeline.load_csv_file`: the table name is the CSV file's stem.
If `is_table_exist` fails, log a warning and return. Otherwise read the CSV
(through `ColumnsManagement`, which aligns its columns to the table schema;
the aligned rows are the `csv_rows` parameter), count the table's rows, skip
the file when the table already has data, and otherwise
`INSERT INTO table SELECT * FROM df`. -/
def DuckDB.load_csv_file (db : DB) (csv_stem : String) (csv_rows : List Row) : DB :=
  match lookupTable db csv_stem with
  | none => db
  | some tbl =>
    if 0 < tbl.rows.length then db
    else setTable db csv_stem ⟨tbl.cols, tbl.rows ++ csv_rows⟩

/-- `PostgreSQLLoader.load_csv_file`, successful path: the table name is the
CSV file's stem. If `is_table_exist` fails, log a warning and return.
Otherwise read the CSV (aligned rows = `csv_rows`) and append them with
`to_sql(..., if_exists='append')` — with no guard on the table's prior
contents. (The failure path is modelled by `Postgres.load_csv_file_tx`.) -/
def Postgres.load_csv_file (db : DB) (csv_stem : String) (csv_rows : List Row) : DB :=
  match lookupTable db csv_stem with
  | none => db
  | some tbl => setTable db csv_stem ⟨tbl.cols, tbl.rows ++ csv_rows⟩

/-- An open transaction: the durable state and the uncommitted working state.
`PostgreSQLLoader.load_csv_file` wraps `df.to_sql(..., method='multi',
chunksize=1000)` in the connection's transaction (`trans =
conn.get_transaction()`), committing on success and rolling back (plus
`logger.error`) on failure; statements act on the pending state, commit
publishes it, rollback discards it. -/
structure TxState where
  committed : DB
  pending : DB
deriving DecidableEq

def txBegin (db : DB) : TxState := ⟨db, db⟩

/-- Run one SQL statement inside the transaction: only the pending state moves. -/
def txExec (st : TxState) (f : DB → DB) : TxState := ⟨st.committed, f st.pending⟩

def txCommit (st : TxState) : DB := st.pending

def txRollback (st : TxState) : DB := st.committed

/-- One chunk of the multi-row INSERT issued by `to_sql`: append the chunk's
rows to the target table. -/
def insertRows (t : String) (chunk : List Row) (db : DB) : DB :=
  match lookupTable db t with
  | none => db
  | some tbl => setTable db t ⟨tbl.cols, tbl.rows ++ chunk⟩

/-- The chunk loop of `to_sql`; `failAt = some k` models the k-th chunk's
INSERT raising (the Boolean result records that the failure happened). -/
def insertLoop : TxState → String → List (List Row) → Option Nat → TxState × Bool
  | st, _, [], _ => (st, false)
  | st, _, _ :: _, some 0 => (st, true)
  | st, t, c :: cs, some (k + 1) => insertLoop (txExec st (insertRows t c)) t cs (some k)
  | st, t, c :: cs, none => insertLoop (txExec st (insertRows t c)) t cs none

/-- `PostgreSQLLoader.load_csv_file` with its transaction: missing table →
warn and return; otherwise run the chunked insert inside the transaction,
commit on success, roll back and log the error on failure (the inner `raise`
is swallowed by the method's outer `except`, which logs again). The Boolean
result records whether the bulk-insert failure path was taken. -/
def Postgres.load_csv_file_tx (db : DB) (t : String) (chunks : List (List Row))
    (failAt : Option Nat) : DB × Bool :=
  match lookupTable db t with
  | none => (db, false)
  | some _ =>
    let r := insertLoop (txBegin db) t chunks failAt
    if r.2 then (txRollback r.1, true) else (txCommit r.1, false)

/-- SQL `table_name LIKE 'z%'`: the name's first character is `z`. -/
def likeZ (name : String) : Bool :=
  match name.data with
  | [] => false
  | c :: _ => c == 'z'

/-- `PostgreSQLLoader.drop_table`, as its effect on the tables of the catalog:
`DROP TABLE IF EXISTS <name> CASCADE` with the configured schema resolving the
name (dependent views are also dropped, but views are not catalog tables). -/
def Postgres.drop_table (cat : Catalog) (schema tbl : String) : Catalog :=
  cat.filter (fun p => !(p.1 == schema && p.2 == tbl))

/-- `PostgreSQLLoader.reset_histo`: select the names of the configured schema's
tables matching `LIKE 'z%'`; when there are none, log an informational message
and return; otherwise drop each selected table in turn and commit. (A failing
drop is logged and re-raised; the modelled drops never fail.) -/
def Postgres.reset_histo (cat : Catalog) (schema : String) : Catalog :=
  let tables := (cat.filter (fun p => p.1 == schema && likeZ p.2)).map Prod.snd
  if tables.isEmpty then cat
  else tables.foldl (fun c n => Postgres.drop_table c schema n) cat

/-- `DuckDBPipeline.reset_histo`: its first statement evaluates `text("...")`,
but the name `text` is never imported in `duckdb_pipeline.py` (the module
imports only duckdb, os, Path, pandas and Logger), so every call raises
`NameError` before any query runs or any table is dropped. -/
def DuckDB.reset_histo (cat : Catalog) (schema : String) : Except String Catalog :=
  Except.error "NameError: name 'text' is not defined"

/-- `ENV_CHOICE` of `pipeline/utils/config.py`. -/
def ENV_CHOICE : List String := ["local", "anais"]

/-- `PROFILE_CHOICE` of `pipeline/utils/config.py`. -/
def PROFILE_CHOICE : List String :=
  ["Staging", "CertDC", "Helios", "InspectionControlePA", "InspectionControlePH"]

/-- `argparse.add_argument(..., choices=..., default=...)` semantics for one
flag: an omitted flag takes the default; a value among the choices is
accepted; any other value makes argparse reject the invocation (exit before
`env_var` returns), modelled as `none`. -/
def parseChoice (choices : List String) (dflt : String) : Option String → Option String
  | none => some dflt
  | some v => if v ∈ choices then some v else none

/-- `env_var`: parse `--env` (choices `ENV_CHOICE`, default `ENV_CHOICE[0]`)
and `--profile` (choices `PROFILE_CHOICE`, default `PROFILE_CHOICE[0]`) and
return the pair; `none` when argparse rejected a flag value. -/
def env_var (envArg profileArg : Option String) : Option (String × String) :=
  match parseChoice ENV_CHOICE (ENV_CHOICE.head (by decide)) envArg,
      parseChoice PROFILE_CHOICE (PROFILE_CHOICE.head (by decide)) profileArg with
  | some e, some p => some (e, p)
  | _, _ => none

/-- One observable step of the orchestration functions in
`pipeline/pipeline_orchestration.py`. -/
inductive Event
  | loader_run
  | copy_table
  | dbt_exec (cmd target : String)
  | export_csv
  | error_logged (msg : String)
deriving DecidableEq

/-- `DuckDBPipeline.is_duckdb_empty`: `SELECT COUNT(*) FROM
information_schema.tables WHERE table_schema NOT IN ('pg_catalog',
'information_schema')`, then `result == 0`. -/
def is_duckdb_empty (cat : Catalog) : Bool :=
  (cat.filter (fun p => !(p.1 == "pg_catalog" || p.1 == "information_schema"))).length
    == 0

/-- `local_staging_pipeline`, as the sequence of its observable steps. The
loader runs when both the CSV input directory and the CREATE TABLE directory
are non-empty (else an error is logged); then, with `cat` the catalog at the
`finally` block, dbt run/test execute only when `is_duckdb_empty` is false,
else an error is logged. (The test step passes target "anais" — as in the
source.) -/
def local_staging_pipeline (inputNonEmpty sqlNonEmpty : Bool) (cat : Catalog) :
    List Event :=
  (if inputNonEmpty && sqlNonEmpty then [Event.loader_run]
   else [Event.error_logged "no way to fill the DuckDB database"]) ++
  (if !(is_duckdb_empty cat) then
    [Event.dbt_exec "run" "local", Event.dbt_exec "test" "anais"]
   else [Event.error_logged "empty database"])

/-- `local_project_pipeline`, as the sequence of its observable steps: copy
from the staging DuckDB file when it exists, else load from the directories
when non-empty, else log an error; then dbt run/test and the CSV export only
when `is_duckdb_empty` is false at the `finally` block, else an error. -/
def local_project_pipeline (stagingDbIsFile inputNonEmpty sqlNonEmpty : Bool)
    (cat : Catalog) : List Event :=
  (if stagingDbIsFile then [Event.copy_table]
   else if inputNonEmpty && sqlNonEmpty then [Event.loader_run]
   else [Event.error_logged "no way to fill the DuckDB database"]) ++
  (if !(is_duckdb_empty cat) then
    [Event.dbt_exec "run" "local", Event.dbt_exec "test" "local", Event.export_csv]
   else [Event.error_logged "empty database"])

/-- Python scoping: a name assigned anywhere in a function body is local to the
whole body. In `run_dbt` (`pipeline/utils/dbt_tools.py`) the assigned names
are `project_path`, `profiles_path`, `dbt_deps` (line 44:
`dbt_deps = dbt_deps(project_path)`) and `result`. -/
def run_dbt_local_names : List String :=
  ["project_path", "profiles_path", "dbt_deps", "result"]

/-- Reading a name inside `run_dbt`: a local name not yet bound raises
UnboundLocalError; a non-local name is looked up in the module globals (where
the module-level `dbt_deps` function would be found only if the name were not
shadowed by the local assignment). -/
def readName (bound : List String) (name : String) : Except String Unit :=
  if name ∈ run_dbt_local_names then
    if name ∈ bound then Except.ok () else Except.error "UnboundLocalError"
  else Except.ok ()

/-- Result of one `run_dbt` call: either an exception propagated out of the
function, or a normal return; both carry the subprocess/log steps performed. -/
inductive DbtOutcome
  | raised (exn : String) (events : List String)
  | returned (events : List String)
deriving DecidableEq

/-- `run_dbt(profile, target, project_dir, profiles_dir, logger)`: inside the
`try`, resolve the two paths (binding `project_path` and `profiles_path`);
when `package-lock.yml` is absent, execute `dbt_deps = dbt_deps(project_path)`
— whose right-hand side begins by reading the name `dbt_deps`; then run the
`dbt run` subprocess. The `except` clause catches only
`subprocess.CalledProcessError` (logging it); any other exception propagates.
`dbtRunOk` abstracts the `dbt run` subprocess exit status. -/
def run_dbt (hasPackageLock dbtRunOk : Bool) : DbtOutcome :=
  let bound := ["project_path", "profiles_path"]
  if hasPackageLock then
    if dbtRunOk then DbtOutcome.returned ["dbt run"]
    else DbtOutcome.returned ["dbt run", "CalledProcessError logged"]
  else
    match readName bound "dbt_deps" with
    | Except.error e =>
      if e == "CalledProcessError" then DbtOutcome.returned [e ++ " logged"]
      else DbtOutcome.raised e []
    | Except.ok _ =>
      if dbtRunOk then DbtOutcome.returned ["dbt deps", "dbt run"]
      else DbtOutcome.returned ["dbt deps", "dbt run", "CalledProcessError logged"]

/-! ### Association-list and helper lemmas -/

theorem lookupTable_setTable_self (db : DB) (n : String) (tbl : Table) :
    lookupTable (setTable db n tbl) n = some tbl := by
  induction db with
  | nil => simp [setTable, lookupTable]
  | cons hd rest ih =>
    obtain ⟨m, t⟩ := hd
    by_cases h : m = n
    · simp [setTable, lookupTable, h]
    · simp [setTable, lookupTable, h, ih]

theorem lookupTable_setTable_ne (db : DB) (n m : String) (tbl : Table) (h : m ≠ n) :
    lookupTable (setTable db n tbl) m = lookupTable db m := by
  induction db with
  | nil =>
    simp only [setTable, lookupTable]
    rw [if_neg (fun hc => h hc.symm)]
  | cons hd rest ih =>
    obtain ⟨k, t⟩ := hd
    by_cases hk : k = n
    · subst hk
      have hkm : ¬(k = m) := fun hc => h hc.symm
      simp only [setTable, if_pos rfl, lookupTable]
      rw [if_neg hkm, if_neg hkm]
    · simp only [setTable, if_neg hk, lookupTable]
      by_cases hm : k = m
      · rw [if_pos hm, if_pos hm]
      · rw [if_neg hm, if_neg hm]
        exact ih

theorem zname_ne (t : String) : "z" ++ t ≠ t := by
  intro h
  have hlen := congrArg String.length h
  rw [String.length_append] at hlen
  have hz : ("z" : String).length = 1 := rfl
  omega

theorem setTable_lookup_eq (db : DB) (t : String) (tb : Table)
    (h : lookupTable db t = some tb) : setTable db t tb = db := by
  induction db with
  | nil => simp [lookupTable] at h
  | cons hd rest ih =>
    obtain ⟨n, x⟩ := hd
    by_cases hn : n = t
    · subst hn
      have hx : x = tb := by
        simpa [lookupTable] using h
      simp [setTable, hx]
    · simp only [lookupTable, if_neg hn] at h
      simp [setTable, hn, ih h]

theorem setTable_setTable (db : DB) (n : String) (a b : Table) :
    setTable (setTable db n a) n b = setTable db n b := by
  induction db with
  | nil => simp [setTable]
  | cons hd rest ih =>
    obtain ⟨k, t⟩ := hd
    by_cases hk : k = n
    · subst hk
      simp [setTable]
    · simp [setTable, hk, ih]

theorem insertLoop_committed (t : String) (cs : List (List Row)) :
    ∀ (st : TxState) (f : Option Nat),
      (insertLoop st t cs f).1.committed = st.committed := by
  induction cs with
  | nil =>
    intro st f
    rfl
  | cons c cs ih =>
    intro st f
    cases f with
    | none => exact ih (txExec st (insertRows t c)) none
    | some k =>
      cases k with
      | zero => rfl
      | succ k => exact ih (txExec st (insertRows t c)) (some k)

theorem insertLoop_fails (t : String) (cs : List (List Row)) :
    ∀ (st : TxState) (k : Nat), k < cs.length →
      (insertLoop st t cs (some k)).2 = true := by
  induction cs with
  | nil =>
    intro st k hk
    exact absurd hk (Nat.not_lt_zero k)
  | cons c cs ih =>
    intro st k hk
    cases k with
    | zero => rfl
    | succ k => exact ih (txExec st (insertRows t c)) k (Nat.lt_of_succ_lt_succ hk)

theorem insertLoop_none_run (t : String) (cs : List (List Row)) :
    ∀ (st : TxState) (tb : Table), lookupTable st.pending t = some tb →
      insertLoop st t cs none
        = (⟨st.committed, setTable st.pending t ⟨tb.cols, tb.rows ++ cs.flatten⟩⟩,
            false) := by
  induction cs with
  | nil =>
    intro st tb h
    show (st, false) = _
    rw [List.flatten_nil, List.append_nil, setTable_lookup_eq _ _ _ h]
  | cons c cs ih =>
    intro st tb h
    have hstep : txExec st (insertRows t c)
        = ⟨st.committed, setTable st.pending t ⟨tb.cols, tb.rows ++ c⟩⟩ := by
      simp [txExec, insertRows, h]
    have hlook : lookupTable (txExec st (insertRows t c)).pending t
        = some ⟨tb.cols, tb.rows ++ c⟩ := by
      rw [hstep]
      exact lookupTable_setTable_self _ _ _
    show insertLoop (txExec st (insertRows t c)) t cs none = _
    rw [ih (txExec st (insertRows t c)) ⟨tb.cols, tb.rows ++ c⟩ hlook, hstep]
    simp only [setTable_setTable, List.flatten_cons, List.append_assoc]

theorem foldl_drop_table_mem (schema : String) (names : List String) :
    ∀ (cat : Catalog) (p : String × String),
      p ∈ names.foldl (fun c n => Postgres.drop_table c schema n) cat
        ↔ p ∈ cat ∧ ∀ n ∈ names, ¬(p.1 = schema ∧ p.2 = n) := by
  induction names with
  | nil =>
    intro cat p
    simp
  | cons n0 ns ih =>
    intro cat p
    rw [List.foldl_cons, ih]
    constructor
    · rintro ⟨hmem, hall⟩
      obtain ⟨hcat, hpred⟩ := List.mem_filter.mp hmem
      refine ⟨hcat, ?_⟩
      intro n hn
      rcases List.mem_cons.mp hn with rfl | hn'
      · rintro ⟨h1, h2⟩
        simp [h1, h2] at hpred
      · exact hall n hn'
    · rintro ⟨hcat, hall⟩
      refine ⟨List.mem_filter.mpr ⟨hcat, ?_⟩, ?_⟩
      · have hn0 := hall n0 (List.mem_cons_self _ _)
        by_cases h1 : p.1 = schema
        · by_cases h2 : p.2 = n0
          · exact absurd ⟨h1, h2⟩ hn0
          · simp [h1, h2]
        · simp [h1]
      · intro n hn
        exact hall n (List.mem_cons_of_mem _ hn)

theorem filter_length_eq_zero_false_iff {α : Type} (l : List α) (f : α → Bool) :
    (((l.filter f).length == 0) = false) ↔ ∃ x ∈ l, f x = true := by
  induction l with
  | nil => simp
  | cons a l ih =>
    by_cases h : f a = true
    · simp only [List.filter_cons, h, if_pos]
      simp [h]
    · simp only [List.filter_cons, h]
      rw [if_neg (by simp [h])]
      rw [ih]
      constructor
      · rintro ⟨x, hx, hfx⟩
        exact ⟨x, List.mem_cons_of_mem _ hx, hfx⟩
      · rintro ⟨x, hx, hfx⟩
        rcases List.mem_cons.mp hx with rfl | hx'
        · exact absurd hfx h
        · exact ⟨x, hx', hfx⟩

/-! ### C1 — historization -/

/-- C1. Historization of a table T (archival naming convention: archive name =
"z" ++ T). When the archive already exists (and, per `append_table`'s
precondition, has T's structure), historizing appends T's rows to the archive
and then empties T; when the archive does not exist, historizing creates it as
a copy of T's contents and then empties T. All other tables are untouched. -/
theorem historize_lifecycle (db : DB) (t : String) (tbl : Table)
    (ht : lookupTable db t = some tbl) :
    (lookupTable db ("z" ++ t) = none →
      ∃ db', historize db t = some db' ∧
        lookupTable db' ("z" ++ t) = some tbl ∧
        lookupTable db' t = some ⟨tbl.cols, []⟩ ∧
        ∀ u, u ≠ t → u ≠ "z" ++ t → lookupTable db' u = lookupTable db u) ∧
    (∀ ztbl, lookupTable db ("z" ++ t) = some ztbl → ztbl.cols = tbl.cols →
      ∃ db', historize db t = some db' ∧
        lookupTable db' ("z" ++ t) = some ⟨ztbl.cols, ztbl.rows ++ tbl.rows⟩ ∧
        lookupTable db' t = some ⟨tbl.cols, []⟩ ∧
        ∀ u, u ≠ t → u ≠ "z" ++ t → lookupTable db' u = lookupTable db u) := by
  constructor
  · intro hz
    have hex : tableExists db ("z" ++ t) = false := by
      rw [tableExists, hz]; rfl
    have h1 : copy_table_into_new db t ("z" ++ t) = some (setTable db ("z" ++ t) tbl) := by
      simp [copy_table_into_new, ht, hex]
    have h2 : lookupTable (setTable db ("z" ++ t) tbl) t = some tbl := by
      rw [lookupTable_setTable_ne _ _ _ _ (Ne.symm (zname_ne t))]
      exact ht
    refine ⟨setTable (setTable db ("z" ++ t) tbl) t ⟨tbl.cols, []⟩, ?_, ?_, ?_, ?_⟩
    · simp [historize, hex, h1, truncate_table, h2]
    · rw [lookupTable_setTable_ne _ _ _ _ (zname_ne t), lookupTable_setTable_self]
    · rw [lookupTable_setTable_self]
    · intro u hut huz
      rw [lookupTable_setTable_ne _ _ _ _ hut, lookupTable_setTable_ne _ _ _ _ huz]
  · intro ztbl hz hcols
    have hex : tableExists db ("z" ++ t) = true := by
      rw [tableExists, hz]; rfl
    have h1 : append_table db t ("z" ++ t)
        = some (setTable db ("z" ++ t) ⟨ztbl.cols, ztbl.rows ++ tbl.rows⟩) := by
      simp [append_table, ht, hz, hcols]
    have h2 : lookupTable (setTable db ("z" ++ t) ⟨ztbl.cols, ztbl.rows ++ tbl.rows⟩) t
        = some tbl := by
      rw [lookupTable_setTable_ne _ _ _ _ (Ne.symm (zname_ne t))]
      exact ht
    refine ⟨setTable (setTable db ("z" ++ t) ⟨ztbl.cols, ztbl.rows ++ tbl.rows⟩) t
      ⟨tbl.cols, []⟩, ?_, ?_, ?_, ?_⟩
    · simp [historize, hex, h1, truncate_table, h2]
    · rw [lookupTable_setTable_ne _ _ _ _ (zname_ne t), lookupTable_setTable_self]
    · rw [lookupTable_setTable_self]
    · intro u hut huz
      rw [lookupTable_setTable_ne _ _ _ _ hut, lookupTable_setTable_ne _ _ _ _ huz]

/-- Witness for C1: a database whose only table is `t0` with one row; the
archive is absent, so historizing creates `zt0` with that row and empties `t0`. -/
theorem historize_lifecycle_witness :
    ∃ db', historize [("t0", Table.mk ["a"] [["1"]])] "t0" = some db' ∧
      lookupTable db' ("z" ++ "t0") = some (Table.mk ["a"] [["1"]]) ∧
      lookupTable db' "t0" = some (Table.mk ["a"] []) ∧
      ∀ u, u ≠ "t0" → u ≠ "z" ++ "t0" →
        lookupTable db' u = lookupTable [("t0", Table.mk ["a"] [["1"]])] u :=
  (historize_lifecycle [("t0", Table.mk ["a"] [["1"]])] "t0" (Table.mk ["a"] [["1"]])
    rfl).1 rfl

/-! ### C2 — copy_table_from_staging -/

/-- Counterexample to C2 as stated: with the DuckDB adapter and a pre-existing
target table `t` (no rows, column `b`), copying staging table `s` (two rows,
column `a`) leaves `t` untouched, so neither the row count nor the column set
of the target matches the staging table. -/
theorem copy_table_from_staging_counterexample :
    DuckDB.copy_table_from_staging [("s", Table.mk ["a"] [["1"], ["2"]])]
        [("t", Table.mk ["b"] [])] "s" "t"
      = some [("t", Table.mk ["b"] [])] ∧
    lookupTable [("t", Table.mk ["b"] [])] "t" = some (Table.mk ["b"] []) ∧
    ¬ ((Table.mk ["b"] ([] : List Row)).rows.length
          = (Table.mk ["a"] [["1"], ["2"]]).rows.length ∧
        (Table.mk ["b"] ([] : List Row)).cols = (Table.mk ["a"] [["1"], ["2"]]).cols) := by
  refine ⟨rfl, rfl, ?_⟩
  decide

/-- C2 as amended: the Postgres adapter always produces a target with the
staging table's row count and column set; the DuckDB adapter does so when the
target does not pre-exist, and leaves the database unchanged when it does. -/
theorem copy_table_from_staging_preserves (staging db : DB) (s t : String)
    (tbl : Table) (hs : lookupTable staging s = some tbl) :
    (∃ db', Postgres.copy_table_from_staging staging db s t = some db' ∧
      ∃ tbl', lookupTable db' t = some tbl' ∧
        tbl'.rows.length = tbl.rows.length ∧ tbl'.cols = tbl.cols) ∧
    (tableExists db t = false →
      ∃ db', DuckDB.copy_table_from_staging staging db s t = some db' ∧
        ∃ tbl', lookupTable db' t = some tbl' ∧
          tbl'.rows.length = tbl.rows.length ∧ tbl'.cols = tbl.cols) ∧
    (tableExists db t = true →
      DuckDB.copy_table_from_staging staging db s t = some db) := by
  refine ⟨?_, ?_, ?_⟩
  · refine ⟨setTable db t tbl, ?_, tbl, lookupTable_setTable_self db t tbl, rfl, rfl⟩
    simp [Postgres.copy_table_from_staging, hs]
  · intro hex
    refine ⟨setTable db t tbl, ?_, tbl, lookupTable_setTable_self db t tbl, rfl, rfl⟩
    simp [DuckDB.copy_table_from_staging, hs, hex]
  · intro hex
    simp [DuckDB.copy_table_from_staging, hs, hex]

/-- Witness for the amended C2, at a one-table staging database: once with an
absent target (both adapters copy) and once with a pre-existing target (the
DuckDB adapter leaves the database unchanged). -/
theorem copy_table_from_staging_preserves_witness :
    (∃ db', Postgres.copy_table_from_staging [("s", Table.mk ["a"] [["1"]])] [] "s" "t"
        = some db' ∧
      ∃ tbl', lookupTable db' "t" = some tbl' ∧
        tbl'.rows.length = (Table.mk ["a"] [["1"]]).rows.length ∧
        tbl'.cols = (Table.mk ["a"] [["1"]]).cols) ∧
    (∃ db', DuckDB.copy_table_from_staging [("s", Table.mk ["a"] [["1"]])] [] "s" "t"
        = some db' ∧
      ∃ tbl', lookupTable db' "t" = some tbl' ∧
        tbl'.rows.length = (Table.mk ["a"] [["1"]]).rows.length ∧
        tbl'.cols = (Table.mk ["a"] [["1"]]).cols) ∧
    DuckDB.copy_table_from_staging [("s", Table.mk ["a"] [["1"]])]
        [("t", Table.mk ["b"] [])] "s" "t"
      = some [("t", Table.mk ["b"] [])] := by
  have h1 := copy_table_from_staging_preserves [("s", Table.mk ["a"] [["1"]])] []
    "s" "t" (Table.mk ["a"] [["1"]]) rfl
  have h2 := copy_table_from_staging_preserves [("s", Table.mk ["a"] [["1"]])]
    [("t", Table.mk ["b"] [])] "s" "t" (Table.mk ["a"] [["1"]]) rfl
  exact ⟨h1.1, h1.2.1 rfl, h2.2.2 rfl⟩

/-! ### C3 — is_table_exist -/

/-- Counterexample to C3 as stated: the DuckDB adapter reports table `t` as
existing for schema `main` although the catalog holds `t` only under schema
`other` — its SQL never mentions the schema from `query_params`. -/
theorem is_table_exist_counterexample :
    DuckDB.is_table_exist [("other", "t")] "main" "t" = true ∧
    ("main", "t") ∉ ([("other", "t")] : Catalog) := by
  decide

/-- C3 as amended: both existence checks are pure functions of the catalog
(hence side-effect free). The Postgres adapter returns true iff the (schema,
name) pair given in `query_params` is in the catalog; the DuckDB adapter
returns true iff the name appears in the catalog under *some* schema,
ignoring the schema in `query_params`. -/
theorem is_table_exist_catalog (cat : Catalog) (qschema qtable : String) :
    (Postgres.is_table_exist cat qschema qtable = true ↔ (qschema, qtable) ∈ cat) ∧
    (DuckDB.is_table_exist cat qschema qtable = true ↔ ∃ s, (s, qtable) ∈ cat) := by
  constructor
  · rw [Postgres.is_table_exist, List.any_eq_true]
    constructor
    · rintro ⟨⟨a, b⟩, hmem, hp⟩
      simp only [Bool.and_eq_true, beq_iff_eq] at hp
      obtain ⟨h1, h2⟩ := hp
      subst h1
      subst h2
      exact hmem
    · intro hmem
      exact ⟨(qschema, qtable), hmem, by simp⟩
  · rw [DuckDB.is_table_exist]
    induction cat with
    | nil => simp
    | cons hd rest ih =>
      obtain ⟨a, b⟩ := hd
      by_cases h : b = qtable
      · subst h
        constructor
        · intro _
          exact ⟨a, List.mem_cons_self _ _⟩
        · intro _
          simp [List.filter_cons]
      · simp only [List.filter_cons]
        have hb : (((a, b) : String × String).2 == qtable) = false := by
          simp [h]
        rw [hb]
        simp only [Bool.false_eq_true, if_false]
        rw [ih]
        constructor
        · rintro ⟨s, hmem⟩
          exact ⟨s, List.mem_cons_of_mem _ hmem⟩
        · rintro ⟨s, hmem⟩
          rcases List.mem_cons.mp hmem with heq | hmem'
          · exact absurd (congrArg Prod.snd heq).symm h
          · exact ⟨s, hmem'⟩

/-! ### C4 / C8 — load_csv_file -/

/-- C4. Loading a CSV whose stem names a table absent from the target backend
is a no-op on database state for both adapters: the table is not created and
no table is modified. -/
theorem load_csv_file_missing_table_noop (db : DB) (stem : String)
    (csv_rows : List Row) (h : lookupTable db stem = none) :
    DuckDB.load_csv_file db stem csv_rows = db ∧
    Postgres.load_csv_file db stem csv_rows = db := by
  constructor
  · simp [DuckDB.load_csv_file, h]
  · simp [Postgres.load_csv_file, h]

/-- Witness for C4: loading `b.csv` into a database that only has table `a`
changes nothing in either adapter. -/
theorem load_csv_file_missing_table_noop_witness :
    DuckDB.load_csv_file [("a", Table.mk ["c"] [])] "b" [["x"]]
      = [("a", Table.mk ["c"] [])] ∧
    Postgres.load_csv_file [("a", Table.mk ["c"] [])] "b" [["x"]]
      = [("a", Table.mk ["c"] [])] :=
  load_csv_file_missing_table_noop [("a", Table.mk ["c"] [])] "b" [["x"]] rfl

/-- C8. When the target table exists and already holds at least one row, the
DuckDB adapter skips the CSV and leaves the database entirely unchanged; the
Postgres adapter has no such guard and appends the CSV's rows regardless. -/
theorem load_csv_file_nonempty_guard (db : DB) (stem : String) (tbl : Table)
    (csv_rows : List Row) (h : lookupTable db stem = some tbl)
    (hrows : 0 < tbl.rows.length) :
    DuckDB.load_csv_file db stem csv_rows = db ∧
    Postgres.load_csv_file db stem csv_rows
      = setTable db stem ⟨tbl.cols, tbl.rows ++ csv_rows⟩ := by
  constructor
  · simp [DuckDB.load_csv_file, h, hrows]
  · simp [Postgres.load_csv_file, h]

/-- Witness for C8: table `t` already has one row; DuckDB skips the CSV,
Postgres appends it. -/
theorem load_csv_file_nonempty_guard_witness :
    DuckDB.load_csv_file [("t", Table.mk ["a"] [["0"]])] "t" [["9"]]
      = [("t", Table.mk ["a"] [["0"]])] ∧
    Postgres.load_csv_file [("t", Table.mk ["a"] [["0"]])] "t" [["9"]]
      = setTable [("t", Table.mk ["a"] [["0"]])] "t"
          ⟨["a"], [["0"]] ++ [["9"]]⟩ :=
  load_csv_file_nonempty_guard [("t", Table.mk ["a"] [["0"]])] "t"
    (Table.mk ["a"] [["0"]]) [["9"]] rfl (by decide)

/-! ### C5 — transactional bulk insert in the Postgres load_csv_file -/

/-- C5. Atomicity of the Postgres CSV bulk insert: if the insert of any chunk
`k` of the CSV fails partway through, the transaction is rolled back, the
target table's contents (indeed the whole database) are exactly what they were
before the call, and the failure is recorded in the log; when no chunk fails,
all rows are appended and no failure is logged. -/
theorem load_csv_file_tx_atomic (db : DB) (t : String) (tbl : Table)
    (chunks : List (List Row)) (k : Nat)
    (h : lookupTable db t = some tbl) (hk : k < chunks.length) :
    Postgres.load_csv_file_tx db t chunks (some k) = (db, true) ∧
    ∃ db', Postgres.load_csv_file_tx db t chunks none = (db', false) ∧
      lookupTable db' t = some ⟨tbl.cols, tbl.rows ++ chunks.flatten⟩ ∧
      ∀ u, u ≠ t → lookupTable db' u = lookupTable db u := by
  constructor
  · have hfail := insertLoop_fails t chunks (txBegin db) k hk
    have hcomm := insertLoop_committed t chunks (txBegin db) (some k)
    simp only [Postgres.load_csv_file_tx, h]
    rw [if_pos hfail]
    rw [txRollback, hcomm]
    rfl
  · have hrun := insertLoop_none_run t chunks (txBegin db) tbl h
    refine ⟨setTable db t ⟨tbl.cols, tbl.rows ++ chunks.flatten⟩, ?_, ?_, ?_⟩
    · simp only [Postgres.load_csv_file_tx, h, hrun]
      rfl
    · exact lookupTable_setTable_self _ _ _
    · intro u hu
      exact lookupTable_setTable_ne _ _ _ _ hu

/-- Witness for C5: a one-row table, a two-chunk CSV, failure at chunk 0 —
the database is returned unchanged; without failure both chunks land. -/
theorem load_csv_file_tx_atomic_witness :
    Postgres.load_csv_file_tx [("t", Table.mk ["a"] [["0"]])] "t"
        [[["1"]], [["2"]]] (some 0)
      = ([("t", Table.mk ["a"] [["0"]])], true) ∧
    ∃ db', Postgres.load_csv_file_tx [("t", Table.mk ["a"] [["0"]])] "t"
        [[["1"]], [["2"]]] none = (db', false) ∧
      lookupTable db' "t" = some ⟨["a"], [["0"]] ++ [[["1"]], [["2"]]].flatten⟩ ∧
      ∀ u, u ≠ "t" →
        lookupTable db' u = lookupTable [("t", Table.mk ["a"] [["0"]])] u :=
  load_csv_file_tx_atomic [("t", Table.mk ["a"] [["0"]])] "t"
    (Table.mk ["a"] [["0"]]) [[["1"]], [["2"]]] 0 rfl (by decide)

/-! ### C6 — reset_histo -/

/-- C6. `reset_histo`, per adapter. Postgres: a table is kept by `reset_histo`
iff it was in the catalog and is not a table of the configured schema whose
name begins with `z` (so exactly the schema's z-named tables are dropped and
no other table); with no such table the catalog is returned unchanged (after
an informational log). DuckDB: the method raises `NameError` on every call —
`text` is not imported in its module — so it never drops anything. -/
theorem reset_histo_drops_z_tables (cat : Catalog) (schema : String) :
    DuckDB.reset_histo cat schema
      = Except.error "NameError: name 'text' is not defined" ∧
    (∀ p : String × String,
      p ∈ Postgres.reset_histo cat schema
        ↔ p ∈ cat ∧ ¬(p.1 = schema ∧ likeZ p.2 = true)) ∧
    ((cat.filter (fun p => p.1 == schema && likeZ p.2)).isEmpty = true →
      Postgres.reset_histo cat schema = cat) := by
  refine ⟨rfl, ?_, ?_⟩
  · intro p
    by_cases hemp : cat.filter (fun p => p.1 == schema && likeZ p.2) = []
    · have hnil := hemp
      have hres : Postgres.reset_histo cat schema = cat := by
        simp [Postgres.reset_histo, hnil]
      rw [hres]
      constructor
      · intro hmem
        refine ⟨hmem, ?_⟩
        rintro ⟨h1, h2⟩
        have : p ∈ cat.filter (fun p => p.1 == schema && likeZ p.2) :=
          List.mem_filter.mpr ⟨hmem, by simp [h1, h2]⟩
        rw [hnil] at this
        exact absurd this (List.not_mem_nil p)
      · exact fun h => h.1
    · have hmapne : (cat.filter (fun p => p.1 == schema && likeZ p.2)).map Prod.snd
          ≠ [] := by
        intro hcontra
        exact hemp (List.map_eq_nil_iff.mp hcontra)
      have hres : Postgres.reset_histo cat schema
          = ((cat.filter (fun p => p.1 == schema && likeZ p.2)).map Prod.snd).foldl
              (fun c n => Postgres.drop_table c schema n) cat := by
        simp only [Postgres.reset_histo]
        rw [if_neg (fun hc => hmapne (List.isEmpty_iff.mp hc))]
      rw [hres, foldl_drop_table_mem]
      constructor
      · rintro ⟨hcat, hall⟩
        refine ⟨hcat, ?_⟩
        rintro ⟨h1, h2⟩
        have hmemf : p ∈ cat.filter (fun p => p.1 == schema && likeZ p.2) :=
          List.mem_filter.mpr ⟨hcat, by simp [h1, h2]⟩
        have hmemm : p.2 ∈ (cat.filter (fun p => p.1 == schema && likeZ p.2)).map
            Prod.snd := List.mem_map_of_mem Prod.snd hmemf
        exact hall p.2 hmemm ⟨h1, rfl⟩
      · rintro ⟨hcat, hnz⟩
        refine ⟨hcat, ?_⟩
        intro n hn
        obtain ⟨q, hq, hqn⟩ := List.mem_map.mp hn
        obtain ⟨hqcat, hqpred⟩ := List.mem_filter.mp hq
        simp only [Bool.and_eq_true, beq_iff_eq] at hqpred
        rintro ⟨h1, h2⟩
        exact hnz ⟨h1, by rw [h2, ← hqn]; exact hqpred.2⟩
  · intro hemp
    have hnil : cat.filter (fun p => p.1 == schema && likeZ p.2) = [] := by
      rwa [List.isEmpty_iff] at hemp
    simp [Postgres.reset_histo, hnil]

/-- Witness for C6: a catalog with a z-table and a plain table in schema `s`
and a z-table in another schema — only `s.zfoo` is dropped by the Postgres
adapter; on a z-free catalog the function is the identity; the DuckDB adapter
always returns the NameError. -/
theorem reset_histo_drops_z_tables_witness :
    ("s", "zfoo") ∉ Postgres.reset_histo
        [("s", "zfoo"), ("s", "bar"), ("o", "zbaz")] "s" ∧
    ("s", "bar") ∈ Postgres.reset_histo
        [("s", "zfoo"), ("s", "bar"), ("o", "zbaz")] "s" ∧
    ("o", "zbaz") ∈ Postgres.reset_histo
        [("s", "zfoo"), ("s", "bar"), ("o", "zbaz")] "s" ∧
    Postgres.reset_histo [("s", "bar")] "s" = [("s", "bar")] ∧
    DuckDB.reset_histo [("s", "bar")] "s"
      = Except.error "NameError: name 'text' is not defined" := by
  have h1 := reset_histo_drops_z_tables [("s", "zfoo"), ("s", "bar"), ("o", "zbaz")] "s"
  have h2 := reset_histo_drops_z_tables [("s", "bar")] "s"
  refine ⟨?_, ?_, ?_, h2.2.2 (by decide), h2.1⟩
  · intro hmem
    exact ((h1.2.1 ("s", "zfoo")).mp hmem).2 ⟨rfl, by decide⟩
  · exact (h1.2.1 ("s", "bar")).mpr ⟨by decide, by rintro ⟨_, h⟩; revert h; decide⟩
  · exact (h1.2.1 ("o", "zbaz")).mpr ⟨by decide, by rintro ⟨h, _⟩; revert h; decide⟩

/-! ### C7 — CLI flags (pipeline/utils/config.py) -/

/-- C7. The CLI accepts `--env` only from {local, anais} and `--profile` only
from {Staging, CertDC, Helios, InspectionControlePA, InspectionControlePH};
any other value is rejected; omitted flags default to env = "local" and
profile = "Staging". -/
theorem env_var_cli_contract :
    env_var none none = some ("local", "Staging") ∧
    (∀ e p : String, env_var (some e) (some p)
        = if e ∈ ENV_CHOICE ∧ p ∈ PROFILE_CHOICE then some (e, p) else none) ∧
    (∀ p : String, env_var none (some p)
        = if p ∈ PROFILE_CHOICE then some ("local", p) else none) ∧
    (∀ e : String, env_var (some e) none
        = if e ∈ ENV_CHOICE then some (e, "Staging") else none) := by
  refine ⟨rfl, ?_, ?_, ?_⟩
  · intro e p
    by_cases he : e ∈ ENV_CHOICE
    · by_cases hp : p ∈ PROFILE_CHOICE
      · simp [env_var, parseChoice, he, hp]
      · simp [env_var, parseChoice, he, hp]
    · by_cases hp : p ∈ PROFILE_CHOICE
      · simp [env_var, parseChoice, he, hp]
      · simp [env_var, parseChoice, he, hp]
  · intro p
    by_cases hp : p ∈ PROFILE_CHOICE
    · simp [env_var, parseChoice, hp, ENV_CHOICE]
    · simp [env_var, parseChoice, hp, ENV_CHOICE]
  · intro e
    by_cases he : e ∈ ENV_CHOICE
    · simp [env_var, parseChoice, he, PROFILE_CHOICE]
    · simp [env_var, parseChoice, he, PROFILE_CHOICE]

/-! ### C9 — dbt runs only on a non-empty DuckDB database -/

/-- C9. In both local pipelines a `dbt_exec` step appears in the trace iff
`is_duckdb_empty` returned false — i.e. iff the catalog holds at least one
table outside pg_catalog/information_schema; when the database is empty the
"empty database" error is logged instead (and only then). -/
theorem dbt_exec_only_on_nonempty_db
    (inputNonEmpty sqlNonEmpty stagingDbIsFile : Bool) (cat : Catalog) :
    ((∃ c t, Event.dbt_exec c t ∈ local_staging_pipeline inputNonEmpty sqlNonEmpty cat)
      ↔ is_duckdb_empty cat = false) ∧
    ((∃ c t, Event.dbt_exec c t
        ∈ local_project_pipeline stagingDbIsFile inputNonEmpty sqlNonEmpty cat)
      ↔ is_duckdb_empty cat = false) ∧
    (is_duckdb_empty cat = false
      ↔ ∃ p ∈ cat, p.1 ≠ "pg_catalog" ∧ p.1 ≠ "information_schema") ∧
    ((Event.error_logged "empty database"
        ∈ local_staging_pipeline inputNonEmpty sqlNonEmpty cat)
      ↔ is_duckdb_empty cat = true) ∧
    ((Event.error_logged "empty database"
        ∈ local_project_pipeline stagingDbIsFile inputNonEmpty sqlNonEmpty cat)
      ↔ is_duckdb_empty cat = true) := by
  refine ⟨?_, ?_, ?_, ?_, ?_⟩
  · cases hdb : is_duckdb_empty cat <;>
      cases inputNonEmpty <;> cases sqlNonEmpty <;>
        simp [local_staging_pipeline, hdb]
    all_goals exact ⟨"run", "local", Or.inl ⟨rfl, rfl⟩⟩
  · cases hdb : is_duckdb_empty cat <;>
      cases stagingDbIsFile <;> cases inputNonEmpty <;> cases sqlNonEmpty <;>
        simp [local_project_pipeline, hdb]
    all_goals exact ⟨"run", "local", Or.inl ⟨rfl, rfl⟩⟩
  · rw [show is_duckdb_empty cat
        = ((cat.filter
            (fun p => !(p.1 == "pg_catalog" || p.1 == "information_schema"))).length
          == 0) from rfl]
    rw [filter_length_eq_zero_false_iff]
    constructor
    · rintro ⟨x, hx, hfx⟩
      refine ⟨x, hx, ?_, ?_⟩
      · intro hc
        rw [hc] at hfx
        simp at hfx
      · intro hc
        rw [hc] at hfx
        simp at hfx
    · rintro ⟨x, hx, h1, h2⟩
      refine ⟨x, hx, ?_⟩
      simp [h1, h2]
  · cases hdb : is_duckdb_empty cat <;>
      cases inputNonEmpty <;> cases sqlNonEmpty <;>
        simp [local_staging_pipeline, hdb]
  · cases hdb : is_duckdb_empty cat <;>
      cases stagingDbIsFile <;> cases inputNonEmpty <;> cases sqlNonEmpty <;>
        simp [local_project_pipeline, hdb]

/-! ### C10 — run_dbt shadows dbt_deps (pipeline/utils/dbt_tools.py) -/

/-- C10. For every project directory lacking `package-lock.yml`, `run_dbt`
raises an unhandled UnboundLocalError with no subprocess invoked (the local
assignment `dbt_deps = dbt_deps(project_path)` shadows the module-level
function and the `except` clause catches only CalledProcessError); with the
lock file present the dbt subprocess runs normally. -/
theorem run_dbt_unbound_local (dbtRunOk : Bool) :
    run_dbt false dbtRunOk = DbtOutcome.raised "UnboundLocalError" [] ∧
    run_dbt true dbtRunOk
      = (if dbtRunOk then DbtOutcome.returned ["dbt run"]
         else DbtOutcome.returned ["dbt run", "CalledProcessError logged"]) := by
  constructor
  · rfl
  · cases dbtRunOk <;> rfl

end Anais
